import Mathlib

/-!
Verification of the command-line orchestration layer of grive2, the file
`src/grive/src/main.cc`.  The development shallowly embeds:

* the program-options table built in `Main` (main.cc lines 173-198);
* the redirect-listener request handler installed by `AuthCode`
  (main.cc lines 113-166);
* the control flow of `Main` (main.cc lines 168-328) and of the
  exception wrapper `main` (main.cc lines 330-349), as a function from
  the parsed variables map, the loaded configuration and an environment
  of external-call outcomes to an exit code together with an ordered
  trace of the externally visible operations performed.

The collaborators `Config`, `OAuth2`, `AuthAgent`, `Drive` and the HTTP
agent are not part of the given source tree; where their behaviour
matters it is modelled from the specification, as noted on the
corresponding definition.
-/

/-- Kinds of thrown values distinguished by the three catch clauses of
`main` (main.cc lines 336-347): the project `gr::Exception`, a
`std::exception`, and anything else. -/
inductive ExcKind
  | grException
  | stdException
  | otherException
deriving DecidableEq

/-- Externally visible operations performed by `Main`, in program order.
Each constructor corresponds to one call site in main.cc:
`initGCrypt` (line 170), `printHelp` (line 215), `printVersion`
(line 220), `initLog` (line 226), `constructConfig` (line 228),
`constructCurlAgent` (line 232), `setHttpLog` (line 234),
`constructProgressBar` (line 239), `constructOAuth2` (lines 253 and
299), `printAuthURL` (lines 257 and 264), `listenAuthCode` (line 267),
`tokenAuth` (line 268), `configSet` (lines 271-274), `configSave`
(lines 275 and 325), `logCritical` (lines 291 and 338-346),
`constructAuthAgent` (line 300), `constructSyncer` (line 301),
`setUploadSpeed` (line 304), `setDownloadSpeed` (line 306),
`constructDrive` (line 308), `detectChanges` (line 309), `update`
(line 316), `saveState` (line 320), `dryRunEff` (line 323),
`showProgress`/`hideProgress` (lines 315 and 318), `logFinished`
(line 326). -/
inductive Effect
  | initGCrypt
  | printHelp
  | printVersion
  | initLog
  | constructConfig
  | constructCurlAgent
  | setHttpLog
  | constructProgressBar
  | constructOAuth2
  | printAuthURL
  | listenAuthCode
  | tokenAuth
  | configSet (key : String)
  | configSave
  | logCritical (msg : String)
  | constructAuthAgent
  | constructSyncer
  | setUploadSpeed (bytesPerSec : Nat)
  | setDownloadSpeed (bytesPerSec : Nat)
  | constructDrive
  | detectChanges
  | update
  | saveState
  | dryRunEff
  | showProgress
  | hideProgress
  | logFinished
deriving DecidableEq

/-- The parsed boost program-options variables map, one field per option
of the table at main.cc lines 173-198.  Presence-only options are
booleans (`vm.count(name) > 0`); options with a value are `Option`s.
`uploadSpeed`/`downloadSpeed` hold values parsed as C `unsigned`, hence
below `2^32`. -/
structure VariablesMap where
  help : Bool
  version : Bool
  auth : Bool
  authId : Option String
  authSecret : Option String
  printUrl : Bool
  wcPath : Option String
  redirectUriArg : Option String
  dirArg : Option String
  verbose : Bool
  logHttp : Option String
  newRev : Bool
  debug : Bool
  logFile : Option String
  force : Bool
  uploadOnly : Bool
  noRemoteNew : Bool
  dryRun : Bool
  uploadSpeed : Option Nat
  downloadSpeed : Option Nat
  progressBar : Bool
deriving DecidableEq

/-- Modelled from the spec: the `Config` class is not under src/.  Only
the four credential keys read by `Main` (main.cc lines 284-287) are
modelled: `refresh_token`, `id`, `secret`, `redirect-uri`.  A key is
`none` when neither the config file nor the command line provides it;
`Config::Get` on a missing key throws (this is what the catch block at
main.cc lines 289-297 handles, per spec section 7(e): missing
credentials are fatal configuration errors). -/
structure Config where
  refreshToken : Option String
  clientId : Option String
  clientSecret : Option String
  redirectUri : Option String
deriving DecidableEq

/-- Modelled from the spec: outcomes of the external calls `Main` makes
into components that are not under src/.  `authRequests` is the
sequence of HTTP GET requests (each given by its parsed query
parameters) that reach the `AuthCode` listener; `refreshTok` is the
token returned by `OAuth2::RefreshToken` after a successful exchange;
the `...Exc` fields say whether the corresponding external call throws
(spec section 7: fatal failure classes abort the run by exception);
`failedPaths` is the number of paths whose reconciliation failed
non-fatally during `Drive::Update` (spec section 7: per-path failures
never abort the run; they are collected and surfaced in a summary). -/
structure Env where
  authRequests : List (List (String × String))
  refreshTok : String
  tokenAuthExc : Option ExcKind
  detectExc : Option ExcKind
  updateExc : Option ExcKind
  saveStateExc : Option ExcKind
  failedPaths : Nat
deriving DecidableEq

/-- Result of one process run: a normal exit with code and trace, an
exception propagating out of `Main` with the trace up to the throw, an
execution blocked forever (the promise in `AuthCode` never fulfilled),
or undefined behaviour (the end-iterator dereference in the `AuthCode`
handler). -/
inductive MainOutcome
  | exits (code : Int) (trace : List Effect)
  | throws (e : ExcKind) (trace : List Effect)
  | hangs (trace : List Effect)
  | undef (trace : List Effect)
deriving DecidableEq

/-- The trace of externally visible operations of an outcome. -/
def MainOutcome.trace : MainOutcome → List Effect
  | .exits _ t => t
  | .throws _ t => t
  | .hangs t => t
  | .undef t => t

/-- One row of the boost options table: long name, optional short
name, and whether the option takes a value argument.  The help text is
kept verbatim-abbreviated for identification. -/
structure OptDesc where
  long : String
  short : Option Char
  takesArg : Bool
  helpText : String
deriving DecidableEq

/-- The options table registered in `Main`, main.cc lines 174-198, in
source order. -/
def griveOptions : List OptDesc :=
  [ ⟨"help", some ('h'), false, "Produce help message"⟩
  , ⟨"version", some ('v'), false, "Display Grive version"⟩
  , ⟨"auth", some ('a'), false, "Request authorization token"⟩
  , ⟨"id", some ('i'), true, "Authentication ID"⟩
  , ⟨"secret", some ('e'), true, "Authentication secret"⟩
  , ⟨"print-url", none, false, "Only print url for request"⟩
  , ⟨"path", some ('p'), true, "Path to working copy root"⟩
  , ⟨"redirect-uri", none, true, "local URI on which to listen for auth redirect"⟩
  , ⟨"dir", some ('s'), true, "Single subdirectory to sync"⟩
  , ⟨"verbose", some ('V'), false, "Verbose mode. Enable more messages than normal."⟩
  , ⟨"log-http", none, true, "Log all HTTP responses in this file for debugging."⟩
  , ⟨"new-rev", none, false, "Create new revisions in server for updated files."⟩
  , ⟨"debug", some ('d'), false, "Enable debug level messages. Implies -v."⟩
  , ⟨"log", some ('l'), true, "Set log output filename."⟩
  , ⟨"force", some ('f'), false, "Force grive to always download a file from Google Drive instead of uploading it."⟩
  , ⟨"upload-only", some ('u'), false, "Do not download anything from Google Drive, only upload local changes"⟩
  , ⟨"no-remote-new", some ('n'), false, "Download only files that are changed in Google Drive and already exist locally"⟩
  , ⟨"dry-run", none, false, "Only detect which files need to be uploaded/downloaded, without actually performing them."⟩
  , ⟨"upload-speed", some ('U'), true, "Limit upload speed in kbytes per second"⟩
  , ⟨"download-speed", some ('D'), true, "Limit download speed in kbytes per second"⟩
  , ⟨"progress-bar", some ('P'), false, "Enable progress bar for upload/download of files"⟩
  ]

/-- The set of long option names the CLI accepts. -/
def optionNames : List String := griveOptions.map (fun o => o.long)

/-- Lookup of the `code` query parameter in the parsed query of an
incoming request: `params.find("code")` at main.cc line 135, where
`params` is the map produced by `uri::split_query` (line 134).  `none`
models `found_code == params.end()`. -/
def lookupCode (params : List (String × String)) : Option String :=
  match params.find? (fun p => p.fst == "code") with
  | some p => some p.snd
  | none => none

/-- What one execution of the GET handler of `AuthCode` does, main.cc
lines 132-157.  `derefOfEnd` records that the access
`found_code->second` at line 152 dereferenced the end iterator, which
is undefined behaviour in C++; when it is `true` the remaining fields
record the nominal source continuation only. -/
structure HandlerTrace where
  printedMissingNote : Bool
  repliedBadRequest : Bool
  accessedCodeValue : Bool
  derefOfEnd : Bool
  repliedOK : Bool
  setPromise : Option String
deriving DecidableEq

/-- The GET handler of `AuthCode`, main.cc lines 132-157.  The
missing-code branch (lines 139-147) prints a note and replies
BadRequest but does not return, so control always falls through to
`auto code = found_code->second;` at line 152, to the OK reply at
line 155 and to `result.set_value(code)` at line 156. -/
def handleGet (params : List (String × String)) : HandlerTrace :=
  { printedMissingNote := (lookupCode params).isNone
  , repliedBadRequest := (lookupCode params).isNone
  , accessedCodeValue := true
  , derefOfEnd := (lookupCode params).isNone
  , repliedOK := true
  , setPromise := lookupCode params }

/-- Possible outcomes of a call to `AuthCode` (main.cc lines 113-166):
the call returns a code, it blocks forever on `result.get_future().get()`
(line 160) because no request ever fulfils the promise, or the handler
runs into the undefined end-iterator dereference. -/
inductive AuthCodeOutcome
  | returns (code : String)
  | blocksForever
  | undefinedBehavior
deriving DecidableEq

/-- Whether an `AuthCode` outcome is a normal return with a code. -/
def AuthCodeOutcome.isReturns : AuthCodeOutcome → Bool
  | .returns _ => true
  | _ => false

/-- `AuthCode` as a function of the sequence of GET requests that reach
the listener.  With no request the blocking `get()` at main.cc line 160
never completes: the source installs no timeout of any kind.  The first
request is handled by `handleGet`; a request carrying a `code`
parameter fulfils the promise and the call returns that code; a request
without one reaches the end-iterator dereference. -/
def AuthCode (requests : List (List (String × String))) : AuthCodeOutcome :=
  match requests with
  | [] => AuthCodeOutcome.blocksForever
  | q :: _ =>
    if (handleGet q).derefOfEnd then AuthCodeOutcome.undefinedBehavior
    else
      match (handleGet q).setPromise with
      | some c => AuthCodeOutcome.returns c
      | none => AuthCodeOutcome.blocksForever

/-- The compile-time constant `APP_ID` substituted at main.cc line 53;
its value is irrelevant to the claims. -/
def default_id : String := "APP_ID"

/-- The compile-time constant `APP_SECRET` substituted at main.cc
line 54. -/
def default_secret : String := "APP_SECRET"

/-- The critical advisory logged when loading the credentials fails,
main.cc lines 291-294 (wording abbreviated). -/
def credErrMsg : String :=
  "Please run grive with the -a option if this is the first time accessing the Google Drive"

/-- The critical message logged by each catch clause of `main`,
main.cc lines 338, 342 and 346 (the first two interpolate details of
the caught exception). -/
def excMsg : ExcKind → String
  | ExcKind.grException => "exception: diagnostic information"
  | ExcKind.stdException => "exception: what"
  | ExcKind.otherException => "unexpected exception"

/-- The four `Config::Get` calls of main.cc lines 284-287: all four
credentials must be present, otherwise the first missing one throws
(modelled from the spec, see `Config`). -/
def credLoad (c : Config) : Option (String × String × String × String) :=
  match c.refreshToken, c.clientId, c.clientSecret, c.redirectUri with
  | some r, some i, some s, some u => some (r, i, s, u)
  | _, _, _, _ => none

/-- Effects of the setup section of `Main` that runs after the
help/version early exits and before the auth branch: `InitLog`
(line 226), `Config` construction (line 228), `CurlAgent` construction
(line 232), the optional HTTP response log (lines 233-234) and the
optional progress bar (lines 236-241). -/
def setupEffects (vm : VariablesMap) : List Effect :=
  [Effect.initGCrypt, Effect.initLog, Effect.constructConfig, Effect.constructCurlAgent]
    ++ (if vm.logHttp.isSome then [Effect.setHttpLog] else [])
    ++ (if vm.progressBar then [Effect.constructProgressBar] else [])

/-- The two rate-limit calls of main.cc lines 303-306: issued only when
the corresponding option was given, with the argument multiplied by
1000 in C `unsigned` arithmetic (reduction modulo `2^32`). -/
def speedEffects (vm : VariablesMap) : List Effect :=
  (match vm.uploadSpeed with
   | some u => [Effect.setUploadSpeed ((u * 1000) % 4294967296)]
   | none => []) ++
  (match vm.downloadSpeed with
   | some d => [Effect.setDownloadSpeed ((d * 1000) % 4294967296)]
   | none => [])

/-- The configuration as saved by the auth flow, main.cc lines 271-275:
all four credential keys are set before `Config::Save`. -/
def authedConfig (vm : VariablesMap) (env : Env) (ruri : String) : Config :=
  { refreshToken := some env.refreshTok
  , clientId := some (vm.authId.getD default_id)
  , clientSecret := some (vm.authSecret.getD default_secret)
  , redirectUri := some ruri }

/-- The `--auth` branch of `Main`, main.cc lines 243-276, threading the
trace accumulated so far.  `Sum.inr` means the branch ended the run
(the `--print-url` early exit at line 258, a throw from
`Config::Get("redirect-uri")` at line 251 or from `OAuth2::Auth` at
line 268, or a non-returning `AuthCode` call); `Sum.inl` carries the
configuration and trace with which `Main` continues at line 278. -/
def authStage (vm : VariablesMap) (cfg : Config) (env : Env) (t : List Effect) :
    (Config × List Effect) ⊕ MainOutcome :=
  if vm.auth then
    match cfg.redirectUri with
    | none => Sum.inr (MainOutcome.throws ExcKind.grException t)
    | some ruri =>
      if vm.printUrl then
        Sum.inr (MainOutcome.exits 0 (t ++ [Effect.constructOAuth2, Effect.printAuthURL]))
      else
        match AuthCode env.authRequests with
        | AuthCodeOutcome.blocksForever =>
          Sum.inr (MainOutcome.hangs
            (t ++ [Effect.constructOAuth2, Effect.printAuthURL, Effect.listenAuthCode]))
        | AuthCodeOutcome.undefinedBehavior =>
          Sum.inr (MainOutcome.undef
            (t ++ [Effect.constructOAuth2, Effect.printAuthURL, Effect.listenAuthCode]))
        | AuthCodeOutcome.returns _ =>
          match env.tokenAuthExc with
          | some e =>
            Sum.inr (MainOutcome.throws e
              (t ++ [Effect.constructOAuth2, Effect.printAuthURL, Effect.listenAuthCode,
                     Effect.tokenAuth]))
          | none =>
            Sum.inl (authedConfig vm env ruri,
              t ++ [Effect.constructOAuth2, Effect.printAuthURL, Effect.listenAuthCode,
                    Effect.tokenAuth, Effect.configSet ("id"), Effect.configSet ("secret"),
                    Effect.configSet ("refresh_token"), Effect.configSet ("redirect-uri"),
                    Effect.configSave])
  else Sum.inl (cfg, t)

/-- The conditional progress-bar notification around the update pass,
main.cc lines 314-318: present exactly when a `ProgressBar` was
constructed. -/
def pbEffects (pb : Bool) (e : Effect) : List Effect := if pb then [e] else []

/-- The sync phase of `Main`, main.cc lines 308-327: `Drive`
construction and `DetectChanges` (lines 308-309), then either the
dry-run report (line 323) or the mutating pass `Update` followed by
`SaveState` (lines 311-321), then `Config::Save` and the final log
(lines 325-327).  A fatal error thrown by one of the external calls
aborts the phase at that point (spec section 7). -/
def syncPhase (dr pb : Bool) (env : Env) (t : List Effect) : MainOutcome :=
  match env.detectExc with
  | some e => MainOutcome.throws e (t ++ [Effect.constructDrive, Effect.detectChanges])
  | none =>
    if dr then
      MainOutcome.exits 0
        (t ++ [Effect.constructDrive, Effect.detectChanges, Effect.dryRunEff,
               Effect.configSave, Effect.logFinished])
    else
      match env.updateExc with
      | some e =>
        MainOutcome.throws e
          (t ++ [Effect.constructDrive, Effect.detectChanges]
             ++ pbEffects pb Effect.showProgress ++ [Effect.update])
      | none =>
        match env.saveStateExc with
        | some e =>
          MainOutcome.throws e
            (t ++ [Effect.constructDrive, Effect.detectChanges]
               ++ pbEffects pb Effect.showProgress ++ [Effect.update]
               ++ pbEffects pb Effect.hideProgress ++ [Effect.saveState])
        | none =>
          MainOutcome.exits 0
            (t ++ [Effect.constructDrive, Effect.detectChanges]
               ++ pbEffects pb Effect.showProgress ++ [Effect.update]
               ++ pbEffects pb Effect.hideProgress
               ++ [Effect.saveState, Effect.configSave, Effect.logFinished])

/-- `Main`, main.cc lines 168-328, over the parsed variables map (the
function starts after `po::store`/`po::notify`; a parse error exits -1
at line 208 and is outside every claim), the loaded configuration and
the environment of external outcomes.  Control flow: gcrypt
initialization (line 170); the help/version early exits (lines
213-223); logging, config and agent setup (lines 226-241); the auth
branch (lines 243-276); the credential load with its catch block
(lines 278-297) exiting -1 with a critical log when a credential is
missing; construction of `OAuth2`, `AuthAgent` and `Syncer2` (lines
299-301); the optional rate limits (lines 303-306); and the sync phase
(lines 308-327). -/
def Main (vm : VariablesMap) (cfg : Config) (env : Env) : MainOutcome :=
  if vm.help then MainOutcome.exits 0 [Effect.initGCrypt, Effect.printHelp]
  else if vm.version then MainOutcome.exits 0 [Effect.initGCrypt, Effect.printVersion]
  else
    match authStage vm cfg env (setupEffects vm) with
    | Sum.inr out => out
    | Sum.inl (cfg1, t1) =>
      match credLoad cfg1 with
      | none => MainOutcome.exits (-1) (t1 ++ [Effect.logCritical credErrMsg])
      | some _ =>
        syncPhase vm.dryRun vm.progressBar env
          (t1 ++ [Effect.constructOAuth2, Effect.constructAuthAgent, Effect.constructSyncer]
              ++ speedEffects vm)

/-- The process entry point `main`, main.cc lines 330-349 (named
`mainEntry` here because Lean reserves `main` for an IO entry point):
any value thrown out of `Main` is caught by one of the three catch
clauses, logged at critical level, and the process returns -1. -/
def mainEntry (vm : VariablesMap) (cfg : Config) (env : Env) : MainOutcome :=
  match Main vm cfg env with
  | MainOutcome.throws e t =>
    MainOutcome.exits (-1) (t ++ [Effect.logCritical (excMsg e)])
  | out => out

/-- A variables map with no option given. -/
def vm0 : VariablesMap :=
  { help := false, version := false, auth := false, authId := none, authSecret := none
  , printUrl := false, wcPath := none, redirectUriArg := none, dirArg := none
  , verbose := false, logHttp := none, newRev := false, debug := false, logFile := none
  , force := false, uploadOnly := false, noRemoteNew := false, dryRun := false
  , uploadSpeed := none, downloadSpeed := none, progressBar := false }

/-- A configuration holding all four credentials. -/
def cfgFull : Config :=
  { refreshToken := some ("rtok"), clientId := some ("cid")
  , clientSecret := some ("csec"), redirectUri := some ("http://localhost:9004") }

/-- A configuration holding no credential at all (first-ever run). -/
def cfgEmpty : Config :=
  { refreshToken := none, clientId := none, clientSecret := none, redirectUri := none }

/-- A benign environment: no request reaches the listener, no external
call throws, no path fails. -/
def env0 : Env :=
  { authRequests := [], refreshTok := "rtok", tokenAuthExc := none
  , detectExc := none, updateExc := none, saveStateExc := none, failedPaths := 0 }

/-- Operations belonging to the sync phase proper. -/
def isSyncEff : Effect → Bool
  | Effect.constructDrive => true
  | Effect.detectChanges => true
  | Effect.update => true
  | Effect.saveState => true
  | Effect.dryRunEff => true
  | _ => false

/-- A trace containing no sync-phase operation. -/
def syncFree (t : List Effect) : Bool := t.all (fun e => !isSyncEff e)

/-- Strict precedence of one operation over another in a trace. -/
def occursBefore (a b : Effect) (t : List Effect) : Prop :=
  ∃ l1 l2 l3, t = l1 ++ a :: l2 ++ b :: l3

lemma occursBefore_append_left (a b : Effect) (s t : List Effect)
    (h : occursBefore a b t) : occursBefore a b (s ++ t) := by
  obtain ⟨l1, l2, l3, rfl⟩ := h
  exact ⟨s ++ l1, l2, l3, by simp⟩

lemma occursBefore_cons (a b x : Effect) (t : List Effect)
    (h : occursBefore a b t) : occursBefore a b (x :: t) := by
  obtain ⟨l1, l2, l3, rfl⟩ := h
  exact ⟨x :: l1, l2, l3, rfl⟩

lemma occursBefore_head (a b : Effect) (t : List Effect) (h : b ∈ t) :
    occursBefore a b (a :: t) := by
  obtain ⟨s, u, rfl⟩ := List.append_of_mem h
  exact ⟨[], s, u, by simp⟩

lemma not_mem_of_syncFree (t : List Effect) (e : Effect)
    (ht : syncFree t = true) (he : isSyncEff e = true) : e ∉ t := by
  intro hmem
  have hall := List.all_eq_true.mp ht e hmem
  rw [he] at hall
  simp at hall

lemma syncFree_append (s t : List Effect) :
    syncFree (s ++ t) = (syncFree s && syncFree t) := by
  simp [syncFree, List.all_append]

lemma syncFree_setupEffects (vm : VariablesMap) : syncFree (setupEffects vm) = true := by
  unfold setupEffects
  cases hl : vm.logHttp.isSome <;> cases hp : vm.progressBar <;>
    simp [syncFree, isSyncEff]

lemma syncFree_speedEffects (vm : VariablesMap) : syncFree (speedEffects vm) = true := by
  unfold speedEffects
  cases hu : vm.uploadSpeed <;> cases hd : vm.downloadSpeed <;>
    simp [syncFree, isSyncEff]

lemma setupEffects_mem (vm : VariablesMap) (e : Effect) (h : e ∈ setupEffects vm) :
    e = Effect.initGCrypt ∨ e = Effect.initLog ∨ e = Effect.constructConfig ∨
    e = Effect.constructCurlAgent ∨ e = Effect.setHttpLog ∨ e = Effect.constructProgressBar := by
  unfold setupEffects at h
  cases hl : vm.logHttp.isSome <;> cases hp : vm.progressBar <;>
    rw [hl, hp] at h <;> simp_all <;> tauto

lemma authStage_inr_spec (vm : VariablesMap) (cfg : Config) (env : Env) (t : List Effect)
    (out : MainOutcome) (h : authStage vm cfg env t = Sum.inr out) :
    (∃ s, out.trace = t ++ s ∧ syncFree s = true) ∧
    (∀ c2 t2, out = MainOutcome.exits c2 t2 → c2 = 0) := by
  by_cases ha : vm.auth = true
  · cases hru : cfg.redirectUri with
    | none =>
      simp only [authStage, ha, if_true, hru, Sum.inr.injEq] at h
      subst h
      refine ⟨⟨[], by simp [MainOutcome.trace], by decide⟩, ?_⟩
      intro c2 t2 hx
      simp at hx
    | some ruri =>
      by_cases hp : vm.printUrl = true
      · simp only [authStage, ha, if_true, hru, hp, Sum.inr.injEq] at h
        subst h
        refine ⟨⟨[Effect.constructOAuth2, Effect.printAuthURL],
          by simp [MainOutcome.trace], by decide⟩, ?_⟩
        intro c2 t2 hx
        simp only [MainOutcome.exits.injEq] at hx
        exact hx.1.symm
      · cases hac : AuthCode env.authRequests with
        | returns code =>
          cases hte : env.tokenAuthExc with
          | none =>
            simp [authStage, ha, hru, hp, hac, hte] at h
          | some e =>
            simp only [authStage, ha, if_true, hru, hp, if_false, hac, hte,
              Bool.false_eq_true, ite_false, Sum.inr.injEq] at h
            subst h
            refine ⟨⟨[Effect.constructOAuth2, Effect.printAuthURL, Effect.listenAuthCode,
              Effect.tokenAuth], by simp [MainOutcome.trace], by decide⟩, ?_⟩
            intro c2 t2 hx
            simp at hx
        | blocksForever =>
          simp only [authStage, ha, if_true, hru, hp, Bool.false_eq_true, ite_false, hac,
            Sum.inr.injEq] at h
          subst h
          refine ⟨⟨[Effect.constructOAuth2, Effect.printAuthURL, Effect.listenAuthCode],
            by simp [MainOutcome.trace], by decide⟩, ?_⟩
          intro c2 t2 hx
          simp at hx
        | undefinedBehavior =>
          simp only [authStage, ha, if_true, hru, hp, Bool.false_eq_true, ite_false, hac,
            Sum.inr.injEq] at h
          subst h
          refine ⟨⟨[Effect.constructOAuth2, Effect.printAuthURL, Effect.listenAuthCode],
            by simp [MainOutcome.trace], by decide⟩, ?_⟩
          intro c2 t2 hx
          simp at hx
  · simp [authStage, ha] at h

lemma authStage_inl_spec (vm : VariablesMap) (cfg : Config) (env : Env) (t : List Effect)
    (cfg1 : Config) (t1 : List Effect) (h : authStage vm cfg env t = Sum.inl (cfg1, t1)) :
    ∃ s, t1 = t ++ s ∧ syncFree s = true := by
  by_cases ha : vm.auth = true
  · cases hru : cfg.redirectUri with
    | none => simp [authStage, ha, hru] at h
    | some ruri =>
      by_cases hp : vm.printUrl = true
      · simp [authStage, ha, hru, hp] at h
      · cases hac : AuthCode env.authRequests with
        | returns code =>
          cases hte : env.tokenAuthExc with
          | none =>
            simp only [authStage, ha, if_true, hru, hp, Bool.false_eq_true, ite_false, hac,
              hte, Sum.inl.injEq, Prod.mk.injEq] at h
            exact ⟨_, h.2.symm, by decide⟩
          | some e => simp [authStage, ha, hru, hp, hac, hte] at h
        | blocksForever => simp [authStage, ha, hru, hp, hac] at h
        | undefinedBehavior => simp [authStage, ha, hru, hp, hac] at h
  · simp only [authStage, ha, Bool.false_eq_true, ite_false, Sum.inl.injEq,
      Prod.mk.injEq] at h
    exact ⟨[], by simp [h.2], by decide⟩

lemma Main_cases (vm : VariablesMap) (cfg : Config) (env : Env) :
    (vm.help = true ∧
      Main vm cfg env = MainOutcome.exits 0 [Effect.initGCrypt, Effect.printHelp]) ∨
    (vm.help = false ∧ vm.version = true ∧
      Main vm cfg env = MainOutcome.exits 0 [Effect.initGCrypt, Effect.printVersion]) ∨
    (vm.help = false ∧ vm.version = false ∧
      ∃ out, authStage vm cfg env (setupEffects vm) = Sum.inr out ∧ Main vm cfg env = out) ∨
    (vm.help = false ∧ vm.version = false ∧
      ∃ cfg1 t1, authStage vm cfg env (setupEffects vm) = Sum.inl (cfg1, t1) ∧
        ((credLoad cfg1 = none ∧
            Main vm cfg env = MainOutcome.exits (-1) (t1 ++ [Effect.logCritical credErrMsg])) ∨
         (credLoad cfg1 ≠ none ∧
            Main vm cfg env = syncPhase vm.dryRun vm.progressBar env
              (t1 ++ [Effect.constructOAuth2, Effect.constructAuthAgent, Effect.constructSyncer]
                  ++ speedEffects vm)))) := by
  by_cases hh : vm.help = true
  · exact Or.inl ⟨hh, by simp [Main, hh]⟩
  · have hh2 : vm.help = false := by
      cases hv : vm.help
      · rfl
      · exact absurd hv hh
    by_cases hv : vm.version = true
    · exact Or.inr (Or.inl ⟨hh2, hv, by simp [Main, hh2, hv]⟩)
    · have hv2 : vm.version = false := by
        cases hx : vm.version
        · rfl
        · exact absurd hx hv
      cases hstage : authStage vm cfg env (setupEffects vm) with
      | inr out =>
        refine Or.inr (Or.inr (Or.inl ⟨hh2, hv2, out, rfl, ?_⟩))
        simp [Main, hh2, hv2, hstage]
      | inl p =>
        obtain ⟨cfg1, t1⟩ := p
        cases hcred : credLoad cfg1 with
        | none =>
          refine Or.inr (Or.inr (Or.inr ⟨hh2, hv2, cfg1, t1, rfl, Or.inl ⟨hcred, ?_⟩⟩))
          simp [Main, hh2, hv2, hstage, hcred]
        | some cr =>
          refine Or.inr (Or.inr (Or.inr ⟨hh2, hv2, cfg1, t1, rfl,
            Or.inr ⟨by simp [hcred], ?_⟩⟩))
          simp [Main, hh2, hv2, hstage, hcred]

lemma syncFree_append_of (s t : List Effect) (hs : syncFree s = true)
    (ht : syncFree t = true) : syncFree (s ++ t) = true := by
  rw [syncFree_append, hs, ht]
  rfl

lemma Main_sync_decomp (vm : VariablesMap) (cfg : Config) (env : Env)
    (h : Effect.constructDrive ∈ (Main vm cfg env).trace) :
    ∃ t, Main vm cfg env = syncPhase vm.dryRun vm.progressBar env t ∧
      syncFree t = true := by
  rcases Main_cases vm cfg env with ⟨hh, hmain⟩ | ⟨hh, hv, hmain⟩ |
    ⟨hh, hv, out, hstage, hmain⟩ | ⟨hh, hv, cfg1, t1, hstage, hrest⟩
  · rw [hmain] at h
    simp [MainOutcome.trace] at h
  · rw [hmain] at h
    simp [MainOutcome.trace] at h
  · obtain ⟨⟨s, hts, hsf⟩, _⟩ := authStage_inr_spec vm cfg env (setupEffects vm) out hstage
    rw [hmain] at h
    rw [hts] at h
    have hfree : syncFree (setupEffects vm ++ s) = true :=
      syncFree_append_of _ _ (syncFree_setupEffects vm) hsf
    exact absurd h (not_mem_of_syncFree _ _ hfree (by decide))
  · obtain ⟨s, hts, hsf⟩ := authStage_inl_spec vm cfg env (setupEffects vm) cfg1 t1 hstage
    have ht1 : syncFree t1 = true := by
      rw [hts]
      exact syncFree_append_of _ _ (syncFree_setupEffects vm) hsf
    rcases hrest with ⟨hcred, hmain⟩ | ⟨hcred, hmain⟩
    · rw [hmain] at h
      simp only [MainOutcome.trace, List.mem_append, List.mem_singleton] at h
      rcases h with h | h
      · exact absurd h (not_mem_of_syncFree _ _ ht1 (by decide))
      · simp at h
    · refine ⟨_, hmain, ?_⟩
      refine syncFree_append_of _ _ (syncFree_append_of _ _ ht1 (by decide)) ?_
      exact syncFree_speedEffects vm

lemma syncPhase_detect_mem (dr pb : Bool) (env : Env) (t : List Effect) :
    Effect.detectChanges ∈ (syncPhase dr pb env t).trace := by
  obtain ⟨ar, rt, te, de, ue, se, fp⟩ := env
  cases de <;> cases dr <;> cases ue <;> cases se <;> cases pb <;>
    simp [syncPhase, pbEffects, MainOutcome.trace]

lemma syncPhase_exits_code (dr pb : Bool) (env : Env) (t : List Effect)
    (c : Int) (tr : List Effect)
    (h : syncPhase dr pb env t = MainOutcome.exits c tr) : c = 0 := by
  obtain ⟨ar, rt, te, de, ue, se, fp⟩ := env
  cases de <;> cases dr <;> cases ue <;> cases se <;>
    simp_all [syncPhase, pbEffects]

lemma syncPhase_dry (pb : Bool) (env : Env) (t : List Effect)
    (ht : syncFree t = true) :
    Effect.update ∉ (syncPhase true pb env t).trace ∧
    Effect.saveState ∉ (syncPhase true pb env t).trace ∧
    (env.detectExc = none →
      Effect.dryRunEff ∈ (syncPhase true pb env t).trace ∧
      occursBefore Effect.detectChanges Effect.dryRunEff (syncPhase true pb env t).trace) := by
  have hupd : Effect.update ∉ t := not_mem_of_syncFree t _ ht (by decide)
  have hsv : Effect.saveState ∉ t := not_mem_of_syncFree t _ ht (by decide)
  obtain ⟨ar, rt, te, de, ue, se, fp⟩ := env
  cases de with
  | some e =>
    refine ⟨?_, ?_, ?_⟩ <;> simp [syncPhase, MainOutcome.trace, hupd, hsv]
  | none =>
    refine ⟨?_, ?_, fun _ => ⟨?_, ?_⟩⟩
    · simp [syncPhase, MainOutcome.trace, hupd]
    · simp [syncPhase, MainOutcome.trace, hsv]
    · simp [syncPhase, MainOutcome.trace]
    · simp only [syncPhase, MainOutcome.trace, List.append_assoc, List.cons_append,
        List.nil_append, if_true]
      exact occursBefore_append_left _ _ t _
        ⟨[Effect.constructDrive], [], [Effect.configSave, Effect.logFinished], rfl⟩

lemma syncPhase_nondry (pb : Bool) (env : Env) (t : List Effect)
    (ht : syncFree t = true) :
    Effect.dryRunEff ∉ (syncPhase false pb env t).trace ∧
    (env.detectExc = none →
      Effect.update ∈ (syncPhase false pb env t).trace ∧
      occursBefore Effect.detectChanges Effect.update (syncPhase false pb env t).trace ∧
      (env.updateExc = none →
        Effect.saveState ∈ (syncPhase false pb env t).trace ∧
        occursBefore Effect.update Effect.saveState (syncPhase false pb env t).trace) ∧
      (∀ e, env.updateExc = some e →
        Effect.saveState ∉ (syncPhase false pb env t).trace)) := by
  have hdre : Effect.dryRunEff ∉ t := not_mem_of_syncFree t _ ht (by decide)
  have hsv : Effect.saveState ∉ t := not_mem_of_syncFree t _ ht (by decide)
  obtain ⟨ar, rt, te, de, ue, se, fp⟩ := env
  cases de with
  | some e =>
    refine ⟨by simp [syncPhase, MainOutcome.trace, hdre], ?_⟩
    intro hx
    simp at hx
  | none =>
    refine ⟨?_, fun _ => ⟨?_, ?_, ?_, ?_⟩⟩
    · cases ue <;> cases se <;> cases pb <;>
        simp [syncPhase, pbEffects, MainOutcome.trace, hdre]
    · cases ue <;> cases se <;> cases pb <;>
        simp [syncPhase, pbEffects, MainOutcome.trace]
    · cases ue with
      | some e =>
        cases pb with
        | true =>
          simp only [syncPhase, pbEffects, MainOutcome.trace, List.append_assoc,
            List.cons_append, List.nil_append, if_true, if_false]
          exact occursBefore_append_left _ _ t _
            ⟨[Effect.constructDrive], [Effect.showProgress], [], rfl⟩
        | false =>
          simp only [syncPhase, pbEffects, MainOutcome.trace, List.append_assoc,
            List.cons_append, List.nil_append, if_true, if_false]
          exact occursBefore_append_left _ _ t _
            ⟨[Effect.constructDrive], [], [], rfl⟩
      | none =>
        cases se with
        | some e =>
          cases pb with
          | true =>
            simp only [syncPhase, pbEffects, MainOutcome.trace, List.append_assoc,
              List.cons_append, List.nil_append, if_true, if_false]
            exact occursBefore_append_left _ _ t _
              ⟨[Effect.constructDrive], [Effect.showProgress],
               [Effect.hideProgress, Effect.saveState], rfl⟩
          | false =>
            simp only [syncPhase, pbEffects, MainOutcome.trace, List.append_assoc,
              List.cons_append, List.nil_append, if_true, if_false]
            exact occursBefore_append_left _ _ t _
              ⟨[Effect.constructDrive], [], [Effect.saveState], rfl⟩
        | none =>
          cases pb with
          | true =>
            simp only [syncPhase, pbEffects, MainOutcome.trace, List.append_assoc,
              List.cons_append, List.nil_append, if_true, if_false]
            exact occursBefore_append_left _ _ t _
              ⟨[Effect.constructDrive], [Effect.showProgress],
               [Effect.hideProgress, Effect.saveState, Effect.configSave,
                Effect.logFinished], rfl⟩
          | false =>
            simp only [syncPhase, pbEffects, MainOutcome.trace, List.append_assoc,
              List.cons_append, List.nil_append, if_true, if_false]
            exact occursBefore_append_left _ _ t _
              ⟨[Effect.constructDrive], [], [Effect.saveState, Effect.configSave,
                Effect.logFinished], rfl⟩
    · intro hue
      have h2 : ue = none := hue
      subst h2
      refine ⟨?_, ?_⟩
      · cases se <;> cases pb <;> simp [syncPhase, pbEffects, MainOutcome.trace]
      · cases se with
        | some e =>
          cases pb with
          | true =>
            simp only [syncPhase, pbEffects, MainOutcome.trace, List.append_assoc,
              List.cons_append, List.nil_append, if_true, if_false]
            exact occursBefore_append_left _ _ t _
              ⟨[Effect.constructDrive, Effect.detectChanges, Effect.showProgress],
               [Effect.hideProgress], [], rfl⟩
          | false =>
            simp only [syncPhase, pbEffects, MainOutcome.trace, List.append_assoc,
              List.cons_append, List.nil_append, if_true, if_false]
            exact occursBefore_append_left _ _ t _
              ⟨[Effect.constructDrive, Effect.detectChanges], [], [], rfl⟩
        | none =>
          cases pb with
          | true =>
            simp only [syncPhase, pbEffects, MainOutcome.trace, List.append_assoc,
              List.cons_append, List.nil_append, if_true, if_false]
            exact occursBefore_append_left _ _ t _
              ⟨[Effect.constructDrive, Effect.detectChanges, Effect.showProgress],
               [Effect.hideProgress], [Effect.configSave, Effect.logFinished], rfl⟩
          | false =>
            simp only [syncPhase, pbEffects, MainOutcome.trace, List.append_assoc,
              List.cons_append, List.nil_append, if_true, if_false]
            exact occursBefore_append_left _ _ t _
              ⟨[Effect.constructDrive, Effect.detectChanges], [],
               [Effect.configSave, Effect.logFinished], rfl⟩
    · intro e hue
      have h2 : ue = some e := hue
      subst h2
      cases pb <;> simp [syncPhase, pbEffects, MainOutcome.trace, hsv]

lemma credLoad_eq_none (c : Config)
    (h : c.refreshToken = none ∨ c.clientId = none ∨
         c.clientSecret = none ∨ c.redirectUri = none) :
    credLoad c = none := by
  obtain ⟨rt, ci, cs, ru⟩ := c
  cases rt <;> cases ci <;> cases cs <;> cases ru <;> simp_all [credLoad]

/-- Operations that can occur in `setupEffects`. -/
def isSetupEff : Effect → Bool
  | Effect.initGCrypt => true
  | Effect.initLog => true
  | Effect.constructConfig => true
  | Effect.constructCurlAgent => true
  | Effect.setHttpLog => true
  | Effect.constructProgressBar => true
  | _ => false

lemma setupEffects_isSetup (vm : VariablesMap) (e : Effect)
    (h : e ∈ setupEffects vm) : isSetupEff e = true := by
  rcases setupEffects_mem vm e h with h | h | h | h | h | h <;> subst h <;> rfl

lemma not_mem_setup_log (vm : VariablesMap) (e : Effect)
    (h1 : isSetupEff e = false) (h2 : ∀ m, e ≠ Effect.logCritical m) :
    e ∉ setupEffects vm ++ [Effect.logCritical credErrMsg] := by
  intro hmem
  rcases List.mem_append.mp hmem with hx | hx
  · rw [setupEffects_isSetup vm e hx] at h1
    cases h1
  · rw [List.mem_singleton] at hx
    exact h2 _ hx

lemma not_mem_setup_pair (vm : VariablesMap) (e : Effect)
    (h1 : isSetupEff e = false) (h2 : e ≠ Effect.constructOAuth2)
    (h3 : e ≠ Effect.printAuthURL) :
    e ∉ setupEffects vm ++ [Effect.constructOAuth2, Effect.printAuthURL] := by
  intro hmem
  rcases List.mem_append.mp hmem with hx | hx
  · rw [setupEffects_isSetup vm e hx] at h1
    cases h1
  · have hx2 : e = Effect.constructOAuth2 ∨ e = Effect.printAuthURL := by simpa using hx
    rcases hx2 with hx2 | hx2
    · exact h2 hx2
    · exact h3 hx2

/-- A variables map giving only `--help`. -/
def vmHelp : VariablesMap := { vm0 with help := true }

/-- A variables map giving `--auth --print-url`. -/
def vmAuthUrl : VariablesMap := { vm0 with auth := true, printUrl := true }

/-- A variables map giving the two bandwidth caps. -/
def vmSpeeds : VariablesMap := { vm0 with uploadSpeed := some 5, downloadSpeed := some 7 }

/-- An environment in which one path failed to reconcile non-fatally. -/
def envPathFail : Env := { env0 with failedPaths := 1 }

/-- An environment in which `Drive::Update` throws a fatal error. -/
def envUpdFail : Env := { env0 with updateExc := some ExcKind.grException }

/-- An environment in which `Drive::DetectChanges` throws a fatal
error. -/
def envDetectFail : Env := { env0 with detectExc := some ExcKind.stdException }

/-- C4 counterexample: the claim asserts that the set of options the
program accepts includes a download-only option, alongside dry-run,
upload-only, the subdirectory filter, force-download and the two
bandwidth caps; the options table of main.cc lines 174-198 contains
no download-only entry, so the conjunction fails. -/
theorem C4_counterexample :
    ¬ ("download-only" ∈ optionNames ∧ "dry-run" ∈ optionNames ∧
       "upload-only" ∈ optionNames ∧ "dir" ∈ optionNames ∧
       "force" ∈ optionNames ∧ "upload-speed" ∈ optionNames ∧
       "download-speed" ∈ optionNames) := by decide

/-- C4 (amended): the CLI recognizes no download-only run mode; the
accepted options do include dry-run, upload-only, the subdirectory
filter (`dir`), force-download (`force`), the two bandwidth caps
(`upload-speed`, `download-speed`), and the closest download-related
mode is `no-remote-new`, which restricts downloads to remotely changed
files that already exist locally. -/
theorem C4_option_table :
    "download-only" ∉ optionNames ∧ "dry-run" ∈ optionNames ∧
    "upload-only" ∈ optionNames ∧ "dir" ∈ optionNames ∧
    "force" ∈ optionNames ∧ "upload-speed" ∈ optionNames ∧
    "download-speed" ∈ optionNames ∧ "no-remote-new" ∈ optionNames := by decide

/-- C6 (code bug): for a GET request whose query string has no `code`
parameter, the handler replies BadRequest as the claim says, but the
missing early return after the reply (main.cc lines 139-147) lets
control fall through to `auto code = found_code->second;` at line 152,
which dereferences the end iterator: the handler does access a code
value for a request without one, contrary to the claim and to the
source's own `If found` comment at line 149.  A request that carries
the parameter behaves as described. -/
theorem C6_missing_code_fallthrough :
    (handleGet [("state", "xyz")]).repliedBadRequest = true ∧
    (handleGet [("state", "xyz")]).accessedCodeValue = true ∧
    (handleGet [("state", "xyz")]).derefOfEnd = true ∧
    (handleGet [("code", "abc")]).derefOfEnd = false ∧
    (handleGet [("code", "abc")]).repliedOK = true ∧
    (handleGet [("code", "abc")]).setPromise = some ("abc") := by decide

/-- C7 counterexample: the claim says every `AuthCode` invocation
either returns a code or terminates by timing out; on a run where no
redirect request ever arrives, the blocking `result.get_future().get()`
at main.cc line 160 never completes and no timeout mechanism exists
anywhere in `AuthCode`, so the call neither returns a code nor times
out. -/
theorem C7_counterexample :
    AuthCode [] = AuthCodeOutcome.blocksForever ∧
    (AuthCode []).isReturns = false := by decide

/-- C7 (amended): `AuthCode` is a single blocking call that returns the
authorization code carried by the first incoming redirect request when
that request has one; when no request ever arrives it blocks forever
(the source installs no timeout), and a first request without a code
runs into the undefined end-iterator dereference. -/
theorem C7_authcode_behavior (requests : List (List (String × String))) :
    AuthCode requests =
      match requests with
      | [] => AuthCodeOutcome.blocksForever
      | q :: _ =>
        match lookupCode q with
        | some c => AuthCodeOutcome.returns c
        | none => AuthCodeOutcome.undefinedBehavior := by
  cases requests with
  | nil => rfl
  | cons q rest =>
    cases hc : lookupCode q with
    | some c => simp [AuthCode, handleGet, hc]
    | none => simp [AuthCode, handleGet, hc]

/-- C7 witness: with a first request carrying code `abc`, `AuthCode`
returns it. -/
theorem C7_witness :
    AuthCode [[("code", "abc")]] = AuthCodeOutcome.returns ("abc") :=
  (C7_authcode_behavior [[("code", "abc")]]).trans (by decide)

/-- C9: when `--help` or `--version` is given, `Main` prints the
requested text and exits 0 before initializing logging and before
constructing the `Config` object, performing no authentication, network
or sync operation (main.cc lines 212-223: these branches run before
`InitLog` at line 226 and `Config config(vm)` at line 228). -/
theorem C9_help_version_early (vm : VariablesMap) (cfg : Config) (env : Env)
    (h : vm.help = true ∨ vm.version = true) :
    ∃ t, Main vm cfg env = MainOutcome.exits 0 t ∧
      (Effect.printHelp ∈ t ∨ Effect.printVersion ∈ t) ∧
      Effect.initLog ∉ t ∧ Effect.constructConfig ∉ t ∧
      Effect.listenAuthCode ∉ t ∧ Effect.tokenAuth ∉ t ∧
      Effect.constructOAuth2 ∉ t ∧ Effect.constructAuthAgent ∉ t ∧
      Effect.detectChanges ∉ t ∧ Effect.update ∉ t ∧
      Effect.saveState ∉ t ∧ Effect.dryRunEff ∉ t := by
  by_cases hh : vm.help = true
  · exact ⟨[Effect.initGCrypt, Effect.printHelp], by simp [Main, hh], by decide⟩
  · have hh2 : vm.help = false := by simpa using hh
    have hv : vm.version = true := h.resolve_left hh
    exact ⟨[Effect.initGCrypt, Effect.printVersion], by simp [Main, hh2, hv], by decide⟩

/-- C9 witness at `--help`. -/
theorem C9_witness :
    (vmHelp.help = true ∨ vmHelp.version = true) ∧
    (∃ t, Main vmHelp cfgEmpty env0 = MainOutcome.exits 0 t ∧
      (Effect.printHelp ∈ t ∨ Effect.printVersion ∈ t) ∧
      Effect.initLog ∉ t ∧ Effect.constructConfig ∉ t ∧
      Effect.listenAuthCode ∉ t ∧ Effect.tokenAuth ∉ t ∧
      Effect.constructOAuth2 ∉ t ∧ Effect.constructAuthAgent ∉ t ∧
      Effect.detectChanges ∉ t ∧ Effect.update ∉ t ∧
      Effect.saveState ∉ t ∧ Effect.dryRunEff ∉ t) :=
  ⟨Or.inl (by decide), C9_help_version_early vmHelp cfgEmpty env0 (Or.inl (by decide))⟩

/-- C8: every exception propagating out of `Main`, whichever of the
three catch clauses of `main` it hits (main.cc lines 336-347), is
logged at critical level and the process returns -1, a non-zero exit
status. -/
theorem C8_exception_exit (vm : VariablesMap) (cfg : Config) (env : Env)
    (e : ExcKind) (t : List Effect)
    (h : Main vm cfg env = MainOutcome.throws e t) :
    mainEntry vm cfg env =
      MainOutcome.exits (-1) (t ++ [Effect.logCritical (excMsg e)]) ∧
    Effect.logCritical (excMsg e) ∈ (mainEntry vm cfg env).trace ∧
    ((-1 : Int) ≠ 0) := by
  refine ⟨by simp [mainEntry, h], ?_, by decide⟩
  simp [mainEntry, h, MainOutcome.trace]

/-- C8 witness: a fatal error thrown by `DetectChanges` propagates out
of `Main` and `main` exits -1 after the critical log. -/
theorem C8_witness :
    Main vm0 cfgFull envDetectFail =
      MainOutcome.throws ExcKind.stdException
        [Effect.initGCrypt, Effect.initLog, Effect.constructConfig,
         Effect.constructCurlAgent, Effect.constructOAuth2, Effect.constructAuthAgent,
         Effect.constructSyncer, Effect.constructDrive, Effect.detectChanges] ∧
    (mainEntry vm0 cfgFull envDetectFail =
      MainOutcome.exits (-1)
        ([Effect.initGCrypt, Effect.initLog, Effect.constructConfig,
          Effect.constructCurlAgent, Effect.constructOAuth2, Effect.constructAuthAgent,
          Effect.constructSyncer, Effect.constructDrive, Effect.detectChanges]
          ++ [Effect.logCritical (excMsg ExcKind.stdException)]) ∧
     Effect.logCritical (excMsg ExcKind.stdException) ∈
       (mainEntry vm0 cfgFull envDetectFail).trace ∧
     ((-1 : Int) ≠ 0)) :=
  ⟨by decide, C8_exception_exit vm0 cfgFull envDetectFail ExcKind.stdException _ (by decide)⟩

/-- C3: when the auth flow is not run and the loaded configuration is
missing any of the four credentials `refresh_token`, `id`, `secret`,
`redirect-uri`, `Main` logs the critical advisory and returns -1
(main.cc lines 278-297) before the `OAuth2`, `AuthAgent` and `Syncer2`
constructions of lines 299-301, performing no sync I/O. -/
theorem C3_missing_credentials_abort (vm : VariablesMap) (cfg : Config) (env : Env)
    (hh : vm.help = false) (hv : vm.version = false) (ha : vm.auth = false)
    (hm : cfg.refreshToken = none ∨ cfg.clientId = none ∨
          cfg.clientSecret = none ∨ cfg.redirectUri = none) :
    Main vm cfg env =
      MainOutcome.exits (-1) (setupEffects vm ++ [Effect.logCritical credErrMsg]) ∧
    Effect.logCritical credErrMsg ∈ (Main vm cfg env).trace ∧
    Effect.constructOAuth2 ∉ (Main vm cfg env).trace ∧
    Effect.constructAuthAgent ∉ (Main vm cfg env).trace ∧
    Effect.constructSyncer ∉ (Main vm cfg env).trace ∧
    Effect.detectChanges ∉ (Main vm cfg env).trace ∧
    Effect.update ∉ (Main vm cfg env).trace ∧
    Effect.saveState ∉ (Main vm cfg env).trace := by
  have hcred : credLoad cfg = none := credLoad_eq_none cfg hm
  have hmain : Main vm cfg env =
      MainOutcome.exits (-1) (setupEffects vm ++ [Effect.logCritical credErrMsg]) := by
    simp [Main, hh, hv, authStage, ha, hcred]
  refine ⟨hmain, ?_, ?_, ?_, ?_, ?_, ?_, ?_⟩ <;> rw [hmain] <;>
    simp only [MainOutcome.trace]
  · simp
  · exact not_mem_setup_log vm _ (by decide) (by simp)
  · exact not_mem_setup_log vm _ (by decide) (by simp)
  · exact not_mem_setup_log vm _ (by decide) (by simp)
  · exact not_mem_setup_log vm _ (by decide) (by simp)
  · exact not_mem_setup_log vm _ (by decide) (by simp)
  · exact not_mem_setup_log vm _ (by decide) (by simp)

/-- C3 witness: a run with no flags and an empty configuration. -/
theorem C3_witness :
    (vm0.help = false ∧ vm0.version = false ∧ vm0.auth = false ∧
     cfgEmpty.refreshToken = none) ∧
    (Main vm0 cfgEmpty env0 =
      MainOutcome.exits (-1) (setupEffects vm0 ++ [Effect.logCritical credErrMsg]) ∧
    Effect.logCritical credErrMsg ∈ (Main vm0 cfgEmpty env0).trace ∧
    Effect.constructOAuth2 ∉ (Main vm0 cfgEmpty env0).trace ∧
    Effect.constructAuthAgent ∉ (Main vm0 cfgEmpty env0).trace ∧
    Effect.constructSyncer ∉ (Main vm0 cfgEmpty env0).trace ∧
    Effect.detectChanges ∉ (Main vm0 cfgEmpty env0).trace ∧
    Effect.update ∉ (Main vm0 cfgEmpty env0).trace ∧
    Effect.saveState ∉ (Main vm0 cfgEmpty env0).trace) :=
  ⟨⟨by decide, by decide, by decide, by decide⟩,
   C3_missing_credentials_abort vm0 cfgEmpty env0 (by decide) (by decide) (by decide)
     (Or.inl (by decide))⟩

/-- C10 counterexample: with both `--auth` and `--print-url` given but
no redirect-uri available (first-ever run with an empty configuration),
`Config::Get("redirect-uri")` at main.cc line 251 throws before the
`--print-url` branch is reached: no authorization URL is printed and
the process exits -1, not 0. -/
theorem C10_counterexample :
    vmAuthUrl.auth = true ∧ vmAuthUrl.printUrl = true ∧
    Main vmAuthUrl cfgEmpty env0 =
      MainOutcome.throws ExcKind.grException
        [Effect.initGCrypt, Effect.initLog, Effect.constructConfig,
         Effect.constructCurlAgent] ∧
    Effect.printAuthURL ∉ (Main vmAuthUrl cfgEmpty env0).trace ∧
    mainEntry vmAuthUrl cfgEmpty env0 =
      MainOutcome.exits (-1)
        [Effect.initGCrypt, Effect.initLog, Effect.constructConfig,
         Effect.constructCurlAgent,
         Effect.logCritical ("exception: diagnostic information")] := by decide

/-- C10 (amended): when both `--auth` and `--print-url` are given and
the configuration yields a redirect-uri, `Main` prints the
authorization URL and exits 0 (main.cc lines 255-259) without
listening for a redirect (`AuthCode` is not called), without exchanging
an authorization code (`OAuth2::Auth` is not called) and without saving
credentials to the configuration. -/
theorem C10_print_url_only (vm : VariablesMap) (cfg : Config) (env : Env) (r : String)
    (hh : vm.help = false) (hv : vm.version = false)
    (ha : vm.auth = true) (hp : vm.printUrl = true)
    (hr : cfg.redirectUri = some r) :
    Main vm cfg env =
      MainOutcome.exits 0
        (setupEffects vm ++ [Effect.constructOAuth2, Effect.printAuthURL]) ∧
    Effect.printAuthURL ∈ (Main vm cfg env).trace ∧
    Effect.listenAuthCode ∉ (Main vm cfg env).trace ∧
    Effect.tokenAuth ∉ (Main vm cfg env).trace ∧
    Effect.configSave ∉ (Main vm cfg env).trace ∧
    (∀ k, Effect.configSet k ∉ (Main vm cfg env).trace) := by
  have hmain : Main vm cfg env =
      MainOutcome.exits 0
        (setupEffects vm ++ [Effect.constructOAuth2, Effect.printAuthURL]) := by
    simp [Main, hh, hv, authStage, ha, hr, hp]
  refine ⟨hmain, ?_, ?_, ?_, ?_, ?_⟩ <;> rw [hmain] <;>
    simp only [MainOutcome.trace]
  · simp
  · exact not_mem_setup_pair vm _ (by decide) (by decide) (by decide)
  · exact not_mem_setup_pair vm _ (by decide) (by decide) (by decide)
  · exact not_mem_setup_pair vm _ (by decide) (by decide) (by decide)
  · intro k
    exact not_mem_setup_pair vm _ (by simp [isSetupEff]) (by simp) (by simp)

/-- C10 witness: `--auth --print-url` with a configured redirect-uri. -/
theorem C10_witness :
    (vmAuthUrl.help = false ∧ vmAuthUrl.version = false ∧ vmAuthUrl.auth = true ∧
     vmAuthUrl.printUrl = true ∧ cfgFull.redirectUri = some ("http://localhost:9004")) ∧
    (Main vmAuthUrl cfgFull env0 =
      MainOutcome.exits 0
        (setupEffects vmAuthUrl ++ [Effect.constructOAuth2, Effect.printAuthURL]) ∧
    Effect.printAuthURL ∈ (Main vmAuthUrl cfgFull env0).trace ∧
    Effect.listenAuthCode ∉ (Main vmAuthUrl cfgFull env0).trace ∧
    Effect.tokenAuth ∉ (Main vmAuthUrl cfgFull env0).trace ∧
    Effect.configSave ∉ (Main vmAuthUrl cfgFull env0).trace ∧
    (∀ k, Effect.configSet k ∉ (Main vmAuthUrl cfgFull env0).trace)) :=
  ⟨⟨by decide, by decide, by decide, by decide, by decide⟩,
   C10_print_url_only vmAuthUrl cfgFull env0 ("http://localhost:9004")
     (by decide) (by decide) (by decide) (by decide) (by decide)⟩

/-- C2 counterexample: a run in which one path failed to reconcile
(non-fatally, inside `Drive::Update`) and no fatal error occurred still
exits 0: `Main` returns 0 unconditionally at main.cc line 327 and never
consults any failure count. -/
theorem C2_counterexample :
    1 ≤ envPathFail.failedPaths ∧
    envPathFail.detectExc = none ∧ envPathFail.updateExc = none ∧
    envPathFail.saveStateExc = none ∧
    Main vm0 cfgFull envPathFail =
      MainOutcome.exits 0
        [Effect.initGCrypt, Effect.initLog, Effect.constructConfig,
         Effect.constructCurlAgent, Effect.constructOAuth2, Effect.constructAuthAgent,
         Effect.constructSyncer, Effect.constructDrive, Effect.detectChanges,
         Effect.update, Effect.saveState, Effect.configSave, Effect.logFinished] := by
  decide

/-- C2 (amended): in every run in which paths failed to reconcile
non-fatally but no fatal error occurred — that is, every run that
performed the update pass and exited normally — the process exit status
is 0 regardless of the number of failed paths: per-path failures are
not reflected in the exit status. -/
theorem C2_exit_code_ignores_failed_paths (vm : VariablesMap) (cfg : Config) (env : Env)
    (c : Int) (t : List Effect)
    (hfail : 1 ≤ env.failedPaths)
    (hrun : Main vm cfg env = MainOutcome.exits c t)
    (hupd : Effect.update ∈ t) : c = 0 := by
  rcases Main_cases vm cfg env with ⟨hh, hmain⟩ | ⟨hh, hv, hmain⟩ |
    ⟨hh, hv, out, hstage, hmain⟩ | ⟨hh, hv, cfg1, t1, hstage, hrest⟩
  · rw [hmain] at hrun
    injection hrun with h1 h2
    exact h1.symm
  · rw [hmain] at hrun
    injection hrun with h1 h2
    exact h1.symm
  · rw [hmain] at hrun
    exact (authStage_inr_spec vm cfg env (setupEffects vm) out hstage).2 c t hrun
  · obtain ⟨s, hts, hsf⟩ := authStage_inl_spec vm cfg env (setupEffects vm) cfg1 t1 hstage
    have ht1 : syncFree t1 = true := by
      rw [hts]
      exact syncFree_append_of _ _ (syncFree_setupEffects vm) hsf
    rcases hrest with ⟨hcred, hmain⟩ | ⟨hcred, hmain⟩
    · rw [hmain] at hrun
      injection hrun with h1 h2
      rw [← h2] at hupd
      rcases List.mem_append.mp hupd with hx | hx
      · exact absurd hx (not_mem_of_syncFree _ _ ht1 (by decide))
      · simp at hx
    · rw [hmain] at hrun
      exact syncPhase_exits_code _ _ _ _ c t hrun

/-- C2 witness: the amended statement applied to the counterexample
run. -/
theorem C2_witness :
    1 ≤ envPathFail.failedPaths ∧
    Main vm0 cfgFull envPathFail =
      MainOutcome.exits 0
        [Effect.initGCrypt, Effect.initLog, Effect.constructConfig,
         Effect.constructCurlAgent, Effect.constructOAuth2, Effect.constructAuthAgent,
         Effect.constructSyncer, Effect.constructDrive, Effect.detectChanges,
         Effect.update, Effect.saveState, Effect.configSave, Effect.logFinished] ∧
    (0 : Int) = 0 :=
  ⟨by decide, by decide,
   C2_exit_code_ignores_failed_paths vm0 cfgFull envPathFail 0
     [Effect.initGCrypt, Effect.initLog, Effect.constructConfig,
      Effect.constructCurlAgent, Effect.constructOAuth2, Effect.constructAuthAgent,
      Effect.constructSyncer, Effect.constructDrive, Effect.detectChanges,
      Effect.update, Effect.saveState, Effect.configSave, Effect.logFinished]
     (by decide) (by decide) (by decide)⟩

lemma mem_speedEffects_upload (vm : VariablesMap) (n : Nat) :
    Effect.setUploadSpeed n ∈ speedEffects vm ↔
      ∃ u, vm.uploadSpeed = some u ∧ n = u * 1000 % 4294967296 := by
  unfold speedEffects
  cases hu : vm.uploadSpeed <;> cases hd : vm.downloadSpeed <;> simp [hu, hd]

lemma mem_speedEffects_download (vm : VariablesMap) (n : Nat) :
    Effect.setDownloadSpeed n ∈ speedEffects vm ↔
      ∃ d, vm.downloadSpeed = some d ∧ n = d * 1000 % 4294967296 := by
  unfold speedEffects
  cases hu : vm.uploadSpeed <;> cases hd : vm.downloadSpeed <;> simp [hu, hd]

lemma syncPhase_speed_mem (dr pb : Bool) (env : Env) (t : List Effect) (n : Nat) :
    (Effect.setUploadSpeed n ∈ (syncPhase dr pb env t).trace ↔
      Effect.setUploadSpeed n ∈ t) ∧
    (Effect.setDownloadSpeed n ∈ (syncPhase dr pb env t).trace ↔
      Effect.setDownloadSpeed n ∈ t) := by
  obtain ⟨ar, rt, te, de, ue, se, fp⟩ := env
  cases de <;> cases dr <;> cases ue <;> cases se <;> cases pb <;>
    simp [syncPhase, pbEffects, MainOutcome.trace]

/-- C5: in a run that reaches the agent (credentials present, no auth
flow), giving `--upload-speed u` sets the agent's upload rate limit to
exactly `u * 1000` bytes per second computed in C `unsigned`
arithmetic (reduction modulo `2^32`), and to no other value; giving
`--download-speed d` does the same for the download limit; an absent
option never sets the corresponding limit, leaving throughput
unlimited (main.cc lines 303-306). -/
theorem C5_rate_limits (vm : VariablesMap) (cfg : Config) (env : Env)
    (hh : vm.help = false) (hv : vm.version = false) (ha : vm.auth = false)
    (hc : credLoad cfg ≠ none) :
    (∀ u, vm.uploadSpeed = some u →
        Effect.setUploadSpeed (u * 1000 % 4294967296) ∈ (Main vm cfg env).trace) ∧
    (∀ n, Effect.setUploadSpeed n ∈ (Main vm cfg env).trace →
        ∃ u, vm.uploadSpeed = some u ∧ n = u * 1000 % 4294967296) ∧
    (vm.uploadSpeed = none →
        ∀ n, Effect.setUploadSpeed n ∉ (Main vm cfg env).trace) ∧
    (∀ d, vm.downloadSpeed = some d →
        Effect.setDownloadSpeed (d * 1000 % 4294967296) ∈ (Main vm cfg env).trace) ∧
    (∀ n, Effect.setDownloadSpeed n ∈ (Main vm cfg env).trace →
        ∃ d, vm.downloadSpeed = some d ∧ n = d * 1000 % 4294967296) ∧
    (vm.downloadSpeed = none →
        ∀ n, Effect.setDownloadSpeed n ∉ (Main vm cfg env).trace) := by
  obtain ⟨cr, hcred⟩ := Option.ne_none_iff_exists.mp hc
  have hmain : Main vm cfg env = syncPhase vm.dryRun vm.progressBar env
      (setupEffects vm
        ++ [Effect.constructOAuth2, Effect.constructAuthAgent, Effect.constructSyncer]
        ++ speedEffects vm) := by
    simp [Main, hh, hv, authStage, ha, ← hcred]
  have keyU : ∀ n, (Effect.setUploadSpeed n ∈ (Main vm cfg env).trace ↔
      Effect.setUploadSpeed n ∈ speedEffects vm) := by
    intro n
    rw [hmain, (syncPhase_speed_mem _ _ _ _ n).1]
    constructor
    · intro hmem
      rcases List.mem_append.mp hmem with hx | hx
      · rcases List.mem_append.mp hx with hy | hy
        · have := setupEffects_isSetup vm _ hy
          simp [isSetupEff] at this
        · have hy2 : Effect.setUploadSpeed n = Effect.constructOAuth2 ∨
              Effect.setUploadSpeed n = Effect.constructAuthAgent ∨
              Effect.setUploadSpeed n = Effect.constructSyncer := by simpa using hy
          rcases hy2 with h2 | h2 | h2 <;> cases h2
      · exact hx
    · intro hmem
      exact List.mem_append.mpr (Or.inr hmem)
  have keyD : ∀ n, (Effect.setDownloadSpeed n ∈ (Main vm cfg env).trace ↔
      Effect.setDownloadSpeed n ∈ speedEffects vm) := by
    intro n
    rw [hmain, (syncPhase_speed_mem _ _ _ _ n).2]
    constructor
    · intro hmem
      rcases List.mem_append.mp hmem with hx | hx
      · rcases List.mem_append.mp hx with hy | hy
        · have := setupEffects_isSetup vm _ hy
          simp [isSetupEff] at this
        · have hy2 : Effect.setDownloadSpeed n = Effect.constructOAuth2 ∨
              Effect.setDownloadSpeed n = Effect.constructAuthAgent ∨
              Effect.setDownloadSpeed n = Effect.constructSyncer := by simpa using hy
          rcases hy2 with h2 | h2 | h2 <;> cases h2
      · exact hx
    · intro hmem
      exact List.mem_append.mpr (Or.inr hmem)
  refine ⟨?_, ?_, ?_, ?_, ?_, ?_⟩
  · intro u hu
    exact (keyU _).mpr ((mem_speedEffects_upload vm _).mpr ⟨u, hu, rfl⟩)
  · intro n hn
    exact (mem_speedEffects_upload vm n).mp ((keyU n).mp hn)
  · intro hnone n hn
    obtain ⟨u, hu, _⟩ := (mem_speedEffects_upload vm n).mp ((keyU n).mp hn)
    rw [hnone] at hu
    cases hu
  · intro d hd
    exact (keyD _).mpr ((mem_speedEffects_download vm _).mpr ⟨d, hd, rfl⟩)
  · intro n hn
    exact (mem_speedEffects_download vm n).mp ((keyD n).mp hn)
  · intro hnone n hn
    obtain ⟨d, hd, _⟩ := (mem_speedEffects_download vm n).mp ((keyD n).mp hn)
    rw [hnone] at hd
    cases hd

/-- C5 witness: `--upload-speed 5 --download-speed 7` on a credentialed
run. -/
theorem C5_witness :
    (vmSpeeds.help = false ∧ vmSpeeds.version = false ∧ vmSpeeds.auth = false ∧
     credLoad cfgFull ≠ none) ∧
    ((∀ u, vmSpeeds.uploadSpeed = some u →
        Effect.setUploadSpeed (u * 1000 % 4294967296) ∈
          (Main vmSpeeds cfgFull env0).trace) ∧
    (∀ n, Effect.setUploadSpeed n ∈ (Main vmSpeeds cfgFull env0).trace →
        ∃ u, vmSpeeds.uploadSpeed = some u ∧ n = u * 1000 % 4294967296) ∧
    (vmSpeeds.uploadSpeed = none →
        ∀ n, Effect.setUploadSpeed n ∉ (Main vmSpeeds cfgFull env0).trace) ∧
    (∀ d, vmSpeeds.downloadSpeed = some d →
        Effect.setDownloadSpeed (d * 1000 % 4294967296) ∈
          (Main vmSpeeds cfgFull env0).trace) ∧
    (∀ n, Effect.setDownloadSpeed n ∈ (Main vmSpeeds cfgFull env0).trace →
        ∃ d, vmSpeeds.downloadSpeed = some d ∧ n = d * 1000 % 4294967296) ∧
    (vmSpeeds.downloadSpeed = none →
        ∀ n, Effect.setDownloadSpeed n ∉ (Main vmSpeeds cfgFull env0).trace)) :=
  ⟨⟨by decide, by decide, by decide, by decide⟩,
   C5_rate_limits vmSpeeds cfgFull env0 (by decide) (by decide) (by decide) (by decide)⟩

/-- C1 counterexample: the claim requires that in every non-dry-run
run reaching the sync phase, `Update` is invoked and then `SaveState`
is invoked; in a run in which `Update` throws a fatal error (spec
section 7: fatal failures abort the run), the exception leaves the
block at main.cc line 316 and `SaveState` at line 320 is never
reached. -/
theorem C1_counterexample :
    vm0.dryRun = false ∧
    Effect.constructDrive ∈ (Main vm0 cfgFull envUpdFail).trace ∧
    Effect.detectChanges ∈ (Main vm0 cfgFull envUpdFail).trace ∧
    Effect.update ∈ (Main vm0 cfgFull envUpdFail).trace ∧
    Effect.saveState ∉ (Main vm0 cfgFull envUpdFail).trace := by decide

/-- C1 (amended): in every run that reaches the sync phase,
`DetectChanges` is performed first; if dry-run is set, `Update` and
`SaveState` are never invoked and, provided `DetectChanges` completes,
`DryRun` is invoked after it; if dry-run is not set, `DryRun` is never
invoked and, provided `DetectChanges` completes, `Update` is invoked
after it, `SaveState` is invoked after `Update` when `Update` completes
without a fatal error, and is not invoked when `Update` throws
(main.cc lines 308-327). -/
theorem C1_sync_phase_order (vm : VariablesMap) (cfg : Config) (env : Env)
    (h : Effect.constructDrive ∈ (Main vm cfg env).trace) :
    Effect.detectChanges ∈ (Main vm cfg env).trace ∧
    (vm.dryRun = true →
      Effect.update ∉ (Main vm cfg env).trace ∧
      Effect.saveState ∉ (Main vm cfg env).trace ∧
      (env.detectExc = none →
        Effect.dryRunEff ∈ (Main vm cfg env).trace ∧
        occursBefore Effect.detectChanges Effect.dryRunEff (Main vm cfg env).trace)) ∧
    (vm.dryRun = false →
      Effect.dryRunEff ∉ (Main vm cfg env).trace ∧
      (env.detectExc = none →
        Effect.update ∈ (Main vm cfg env).trace ∧
        occursBefore Effect.detectChanges Effect.update (Main vm cfg env).trace ∧
        (env.updateExc = none →
          Effect.saveState ∈ (Main vm cfg env).trace ∧
          occursBefore Effect.update Effect.saveState (Main vm cfg env).trace) ∧
        (∀ e, env.updateExc = some e →
          Effect.saveState ∉ (Main vm cfg env).trace))) := by
  obtain ⟨t, hmain, hfree⟩ := Main_sync_decomp vm cfg env h
  rw [hmain]
  refine ⟨syncPhase_detect_mem _ _ _ _, ?_, ?_⟩
  · intro hdr
    rw [hdr]
    exact syncPhase_dry vm.progressBar env t hfree
  · intro hdr
    rw [hdr]
    exact syncPhase_nondry vm.progressBar env t hfree

/-- C1 witness: a plain non-dry-run sync with no fatal error. -/
theorem C1_witness :
    Effect.constructDrive ∈ (Main vm0 cfgFull env0).trace ∧
    (Effect.detectChanges ∈ (Main vm0 cfgFull env0).trace ∧
    (vm0.dryRun = true →
      Effect.update ∉ (Main vm0 cfgFull env0).trace ∧
      Effect.saveState ∉ (Main vm0 cfgFull env0).trace ∧
      (env0.detectExc = none →
        Effect.dryRunEff ∈ (Main vm0 cfgFull env0).trace ∧
        occursBefore Effect.detectChanges Effect.dryRunEff
          (Main vm0 cfgFull env0).trace)) ∧
    (vm0.dryRun = false →
      Effect.dryRunEff ∉ (Main vm0 cfgFull env0).trace ∧
      (env0.detectExc = none →
        Effect.update ∈ (Main vm0 cfgFull env0).trace ∧
        occursBefore Effect.detectChanges Effect.update (Main vm0 cfgFull env0).trace ∧
        (env0.updateExc = none →
          Effect.saveState ∈ (Main vm0 cfgFull env0).trace ∧
          occursBefore Effect.update Effect.saveState (Main vm0 cfgFull env0).trace) ∧
        (∀ e, env0.updateExc = some e →
          Effect.saveState ∉ (Main vm0 cfgFull env0).trace)))) :=
  ⟨by decide, C1_sync_phase_order vm0 cfgFull env0 (by decide)⟩
